import Mathlib

/-!
Shallow embedding of the `hvac_fan_gaits` core (fan model, operating-point
solver, speed solver, discrete mode selector, power model and the time
simulator) over exact rationals, together with theorems settling the
specification claims.  Machine floats are modelled as `ℚ`; numpy float
literals such as `1e-9` become the exact rationals they denote; the shape
exponent `n_shape` (a float holding an integral value, default `2.0`) is
modelled as a natural number so that `x ** n_shape` is `x ^ n`.
-/

namespace HvacFanGaits

/-- Embedding of `np.clip(v, lo, hi)`: `min (max v lo) hi`. -/
def clip (v lo hi : ℚ) : ℚ := min (max v lo) hi

/-- Embedding of `np.linspace(a, b, n)`: `n` evenly spaced points from `a`
to `b`; for `n = 1` the single point is `a` (the `(n-1)`-denominator is 0
and rational division by zero yields 0, matching numpy's special case). -/
def linspace (a b : ℚ) (n : ℕ) : List ℚ :=
  (List.range n).map (fun i : ℕ => a + (b - a) * (i : ℚ) / ((n : ℚ) - 1))

/-- Scan underlying `np.argmin`: current index, best index and best value;
the best is replaced only on a strict decrease, so the first minimum wins. -/
def argminAux : List ℚ → ℕ → ℕ → ℚ → ℕ
  | [], _, bi, _ => bi
  | x :: xs, i, bi, bv =>
      if x < bv then argminAux xs (i + 1) i x else argminAux xs (i + 1) bi bv

/-- Embedding of `np.argmin` on a list: index of the first minimum
(0 on the empty list, which numpy instead rejects; the solver below only
applies it to nonempty grids). -/
def argminIdx : List ℚ → ℕ
  | [] => 0
  | x :: xs => argminAux xs 1 0 x

/-- Scan underlying Python `min(iterable, key=f)`: keeps the current best,
replacing it only when a strictly smaller key appears, so on exact key ties
the earliest element is kept. -/
def pyMinByGo {α : Type} (f : α → ℚ) : α → List α → α
  | b, [] => b
  | b, x :: xs => pyMinByGo f (if f x < f b then x else b) xs

/-- Embedding of Python `min(l, key=f)`: `none` on the empty list (Python
raises `ValueError` there). -/
def pyMinBy {α : Type} (f : α → ℚ) : List α → Option α
  | [] => none
  | x :: xs => some (pyMinByGo f x xs)

/-- Scan underlying Python `max(iterable, key=f)`: replaces only on a strict
increase, so on exact key ties the earliest element is kept. -/
def pyMaxByGo {α : Type} (f : α → ℚ) : α → List α → α
  | b, [] => b
  | b, x :: xs => pyMaxByGo f (if f b < f x then x else b) xs

/-- Embedding of Python `max(l, key=f)`: `none` on the empty list (Python
raises `ValueError` there). -/
def pyMaxBy {α : Type} (f : α → ℚ) : List α → Option α
  | [] => none
  | x :: xs => some (pyMaxByGo f x xs)

/-- Insertion into an ascending-sorted list, used to model the sort inside
`np.median`. -/
def insertSorted (x : ℚ) : List ℚ → List ℚ
  | [] => [x]
  | y :: ys => if x ≤ y then x :: y :: ys else y :: insertSorted x ys

/-- Ascending insertion sort (any correct sort gives the same value list,
which is all `np.median` needs). -/
def sortAsc (l : List ℚ) : List ℚ := l.foldr insertSorted []

/-- Embedding of `np.median`: sort ascending, take the middle element for
odd length and the mean of the two middle elements for even length. -/
def median (l : List ℚ) : ℚ :=
  let s := sortAsc l
  let n := l.length
  if n % 2 = 1 then s.getD (n / 2) 0
  else (s.getD (n / 2 - 1) 0 + s.getD (n / 2) 0) / 2

/-- Embedding of `np.diff`: consecutive differences `t[i+1] - t[i]`. -/
def consecDiffs (t : List ℚ) : List ℚ :=
  t.zipWith (fun a b => b - a) t.tail

/-- Embedding of the dataclass `FanCurve` of `fan.py`: reference
free-delivery airflow, reference shutoff pressure, reference speed and the
shape exponent (`n_shape`, held at an integral value, default 2). -/
structure FanCurve where
  Q_free_ref_cfm : ℚ
  dP_shut_ref_Pa : ℚ
  N_ref_rpm : ℚ
  n_shape : ℕ := 2
deriving DecidableEq

/-- Embedding of `FanCurve.free_delivery_cfm`. -/
def FanCurve.free_delivery_cfm (fan : FanCurve) (N_rpm : ℚ) : ℚ :=
  fan.Q_free_ref_cfm * (N_rpm / fan.N_ref_rpm)

/-- Embedding of `FanCurve.shutoff_pressure_Pa`. -/
def FanCurve.shutoff_pressure_Pa (fan : FanCurve) (N_rpm : ℚ) : ℚ :=
  fan.dP_shut_ref_Pa * (N_rpm / fan.N_ref_rpm) ^ 2

/-- Embedding of `FanCurve.dP_at` (scalar case): static pressure rise at
airflow `Q` and speed `N`, clipped to be non-negative. -/
def FanCurve.dP_at (fan : FanCurve) (Q_cfm N_rpm : ℚ) : ℚ :=
  let Q_free := fan.free_delivery_cfm N_rpm
  let dP_shut := fan.shutoff_pressure_Pa N_rpm
  let x := clip (Q_cfm / max Q_free (1 / 1000000000)) 0 10
  dP_shut * max (1 - x ^ fan.n_shape) 0

/-- Embedding of `SystemCurve.dP_at` of `system.py`: quadratic resistance
`k * Q^2`. -/
def systemDP (k Q_cfm : ℚ) : ℚ := k * Q_cfm ^ 2

/-- Embedding of `operating_point_Q` of `controller.py`: grid search for the
airflow where the fan curve meets `k·Q²`, on `n_grid` evenly spaced samples
of `[0, Q_free]`; returns 0 directly when the free delivery is ≈ 0. -/
def operating_point_Q (fan : FanCurve) (k rpm : ℚ) (n_grid : ℕ := 800) : ℚ :=
  let Q_free := fan.free_delivery_cfm rpm
  if Q_free ≤ 1 / 1000000000 then 0
  else
    let Qs := linspace 0 Q_free n_grid
    let i := argminIdx (Qs.map (fun q => |fan.dP_at q rpm - systemDP k q|))
    Qs.getD i 0

/-- Bisection loop of `solve_rpm_for_Q`, with the iteration count as fuel;
when the fuel runs out the final midpoint and its operating airflow are
returned. -/
def solveRpmLoop (fan : FanCurve) (k Q_target eps_cfm : ℚ) :
    ℕ → ℚ → ℚ → ℚ × ℚ
  | 0, lo, hi =>
      let rpm := (lo + hi) / 2
      (rpm, operating_point_Q fan k rpm)
  | n + 1, lo, hi =>
      let mid := (lo + hi) / 2
      let Qm := operating_point_Q fan k mid
      if Qm < Q_target - eps_cfm then solveRpmLoop fan k Q_target eps_cfm n mid hi
      else if Q_target + eps_cfm < Qm then solveRpmLoop fan k Q_target eps_cfm n lo mid
      else (mid, Qm)

/-- Embedding of `solve_rpm_for_Q` of `controller.py`: clamp to `rpm_lo`
when the target is within tolerance below the low-speed airflow, clamp to
`rpm_hi` when the target is at or above the high-speed airflow minus the
tolerance, and otherwise bisect. -/
def solve_rpm_for_Q (fan : FanCurve) (k Q_target rpm_lo rpm_hi : ℚ)
    (eps_cfm : ℚ := 10) (iters : ℕ := 24) : ℚ × ℚ :=
  let Q_lo := operating_point_Q fan k rpm_lo
  let Q_hi := operating_point_Q fan k rpm_hi
  if Q_target ≤ Q_lo + eps_cfm then (rpm_lo, Q_lo)
  else if Q_hi - eps_cfm ≤ Q_target then (rpm_hi, Q_hi)
  else solveRpmLoop fan k Q_target eps_cfm iters rpm_lo rpm_hi

/-- The `(rpm, Qop, P)` triples `choose_mode_min_power` builds, one per
listed speed, in list order. -/
def modeTriples (fan : FanCurve) (k : ℚ) (speeds_rpm : List ℚ)
    (power_fn : FanCurve → ℚ → ℚ → ℚ → ℚ → ℚ) (P_bep_ref_W N_ref_rpm : ℚ) :
    List (ℚ × ℚ × ℚ) :=
  speeds_rpm.map (fun rpm =>
    (rpm, operating_point_Q fan k rpm,
     power_fn fan (operating_point_Q fan k rpm) rpm P_bep_ref_W N_ref_rpm))

/-- The feasible sublist of `modeTriples`: those whose operating airflow
meets the demand within tolerance, `Qop ≥ Q_target − eps`. -/
def modeFeasible (fan : FanCurve) (k : ℚ) (speeds_rpm : List ℚ)
    (Q_target eps_cfm : ℚ) (power_fn : FanCurve → ℚ → ℚ → ℚ → ℚ → ℚ)
    (P_bep_ref_W N_ref_rpm : ℚ) : List (ℚ × ℚ × ℚ) :=
  (modeTriples fan k speeds_rpm power_fn P_bep_ref_W N_ref_rpm).filter
    (fun z => Q_target - eps_cfm ≤ z.2.1)

/-- Embedding of `choose_mode_min_power` of `controller.py`: build
(rpm, Qop, P) triples for every listed speed, filter the feasible ones
(`Qop ≥ Q_target − eps`), take the minimum-power feasible triple if any,
otherwise the maximum-airflow triple; `none` models the `ValueError` Python
raises when `speeds_rpm` is empty. -/
def choose_mode_min_power (fan : FanCurve) (k : ℚ) (speeds_rpm : List ℚ)
    (Q_target eps_cfm : ℚ) (power_fn : FanCurve → ℚ → ℚ → ℚ → ℚ → ℚ)
    (P_bep_ref_W N_ref_rpm : ℚ) : Option (ℚ × ℚ) :=
  match pyMinBy (fun z => z.2.2)
      (modeFeasible fan k speeds_rpm Q_target eps_cfm power_fn
        P_bep_ref_W N_ref_rpm) with
  | some z => some (z.1, z.2.1)
  | none =>
      (pyMaxBy (fun z => z.2.1)
        (modeTriples fan k speeds_rpm power_fn P_bep_ref_W N_ref_rpm)).map
        (fun z => (z.1, z.2.1))

/-- Raw quadratic power-curve coefficients `(b1, b2)` of
`power_model_convex` before the physicality fallback: `b2` from the two
calibration constraints (with the guarded denominator the source uses when
`x_bep² - x_bep` is within `1e-9` of zero), and `b1 = (gamma - p0) - b2`. -/
def power_coeffs_raw (idle_frac gamma_free x_bep : ℚ) : ℚ × ℚ :=
  let p0 := idle_frac
  let denom :=
    if 1 / 1000000000 < |x_bep ^ 2 - x_bep| then x_bep ^ 2 - x_bep
    else -(1 / 1000)
  let b2 := (1 - p0 - x_bep * (gamma_free - p0)) / denom
  ((gamma_free - p0) - b2, b2)

/-- Coefficients `(b1, b2)` of `power_model_convex` after the fallback: when
the raw solution has `b2 ≤ 0` or `b1 + 2·b2 ≤ 0`, replace `b2` by
`max(0.2·(gamma − 1), 1e-3)` and recompute `b1`. -/
def power_coeffs (idle_frac gamma_free x_bep : ℚ) : ℚ × ℚ :=
  let raw := power_coeffs_raw idle_frac gamma_free x_bep
  if raw.2 ≤ 0 ∨ raw.1 + 2 * raw.2 ≤ 0 then
    ((gamma_free - idle_frac) - max (1 / 5 * (gamma_free - 1)) (1 / 1000),
     max (1 / 5 * (gamma_free - 1)) (1 / 1000))
  else raw

/-- Embedding of `power_model_convex` of `simulate.py`: electrical power
`P_bep_ref·(rpm/N_ref)³ · (p0 + b1·x + b2·x²)` with
`x = clip(Q / max(Q_free, 1e-9), 0, 1)`. -/
def power_model_convex (fan : FanCurve) (Q_cfm rpm P_bep_ref_W N_ref_rpm : ℚ)
    (idle_frac : ℚ := 11 / 50) (gamma_free : ℚ := 2) (x_bep : ℚ := 3 / 5) : ℚ :=
  let Q_free := max (fan.free_delivery_cfm rpm) (1 / 1000000000)
  let x := clip (Q_cfm / Q_free) 0 1
  let b := power_coeffs idle_frac gamma_free x_bep
  let P_bep_N := P_bep_ref_W * (rpm / N_ref_rpm) ^ 3
  P_bep_N * (idle_frac + b.1 * x + b.2 * x ^ 2)

/-- One row of the simulator's output table: time, demand, resistance, and
per-strategy delivered airflow, speed, power, compliance flag, shortfall
and oversupply. -/
structure Frame where
  t : ℚ
  Qd : ℚ
  k : ℚ
  Q_fixed : ℚ
  rpm_fixed : ℚ
  P_fixed : ℚ
  c_fixed : Bool
  s_fixed : ℚ
  o_fixed : ℚ
  Q_modes : ℚ
  rpm_modes : ℚ
  P_modes : ℚ
  c_modes : Bool
  s_modes : ℚ
  o_modes : ℚ
  Q_var : ℚ
  rpm_var : ℚ
  P_var : ℚ
  c_var : Bool
  s_var : ℚ
  o_var : ℚ
deriving DecidableEq

/-- Default frame (all-zero, non-compliant); only used as the out-of-range
value of `List.getD`. -/
def frameDefault : Frame :=
  { t := 0, Qd := 0, k := 0, Q_fixed := 0, rpm_fixed := 0, P_fixed := 0,
    c_fixed := false, s_fixed := 0, o_fixed := 0, Q_modes := 0, rpm_modes := 0,
    P_modes := 0, c_modes := false, s_modes := 0, o_modes := 0, Q_var := 0,
    rpm_var := 0, P_var := 0, c_var := false, s_var := 0, o_var := 0 }

/-- Aggregate record `_agg` builds per strategy. -/
structure AggMetrics where
  Wh : ℚ
  cfmh_delivered : ℚ
  cfmh_shortfall : ℚ
  cfmh_oversupply : ℚ
  compliance_pct : ℚ
  SFP : ℚ
  objective : ℚ
deriving DecidableEq

/-- Metrics dictionary returned by `run_time_sim`. -/
structure Metrics where
  fixed : AggMetrics
  modes : AggMetrics
  var : AggMetrics
  eps_cfm : ℚ
  lambda_shortfall : ℚ
deriving DecidableEq

/-- Pure per-timestep body of the `run_time_sim` loop, given this step's
time, demand, resistance and the mode-selector result `(rpm_m, Qm)`. -/
def simFrame (fan : FanCurve) (fixed_rpm P_bep_ref_W N_ref_rpm
    idle_frac gamma_free x_bep rpm_lo rpm_hi eps_cfm ti Qd k : ℚ)
    (mode : ℚ × ℚ) : Frame :=
  let Qf := operating_point_Q fan k fixed_rpm
  let Pf := power_model_convex fan Qf fixed_rpm P_bep_ref_W N_ref_rpm
    idle_frac gamma_free x_bep
  let Pm := power_model_convex fan mode.2 mode.1 P_bep_ref_W N_ref_rpm
    idle_frac gamma_free x_bep
  let v := solve_rpm_for_Q fan k Qd rpm_lo rpm_hi eps_cfm
  let Pv := power_model_convex fan v.2 v.1 P_bep_ref_W N_ref_rpm
    idle_frac gamma_free x_bep
  { t := ti, Qd := Qd, k := k,
    Q_fixed := Qf, rpm_fixed := fixed_rpm, P_fixed := Pf,
    c_fixed := decide (|Qf - Qd| ≤ eps_cfm),
    s_fixed := max 0 (Qd - Qf - eps_cfm),
    o_fixed := max 0 (Qf - Qd - eps_cfm),
    Q_modes := mode.2, rpm_modes := mode.1, P_modes := Pm,
    c_modes := decide (|mode.2 - Qd| ≤ eps_cfm),
    s_modes := max 0 (Qd - mode.2 - eps_cfm),
    o_modes := max 0 (mode.2 - Qd - eps_cfm),
    Q_var := v.2, rpm_var := v.1, P_var := Pv,
    c_var := decide (|v.2 - Qd| ≤ eps_cfm),
    s_var := max 0 (Qd - v.2 - eps_cfm),
    o_var := max 0 (v.2 - Qd - eps_cfm) }

/-- One iteration of the simulator loop at index `i`: the series accesses
`Q_demand[i]` and `k_t[i]` (which raise `IndexError` past the end, hence
`Option`) and the mode selection (which raises on an empty speed list). -/
def simStep (fan : FanCurve) (t Q_demand k_t : List ℚ) (speeds_rpm : List ℚ)
    (fixed_rpm P_bep_ref_W N_ref_rpm idle_frac gamma_free x_bep
     rpm_lo rpm_hi eps_cfm : ℚ) (i : ℕ) : Option Frame := do
  let k ← k_t.get? i
  let Qd ← Q_demand.get? i
  let mode ← choose_mode_min_power fan k speeds_rpm Qd eps_cfm
    (fun f q r pb nr => power_model_convex f q r pb nr) P_bep_ref_W N_ref_rpm
  pure (simFrame fan fixed_rpm P_bep_ref_W N_ref_rpm idle_frac gamma_free
    x_bep rpm_lo rpm_hi eps_cfm (t.getD i 0) Qd k mode)

/-- Sequencing of the per-step `Option` results, in chronological order:
`none` as soon as one step fails. -/
def seqSteps (g : ℕ → Option Frame) : List ℕ → Option (List Frame)
  | [] => some []
  | i :: is =>
      match g i, seqSteps g is with
      | some f, some fs => some (f :: fs)
      | _, _ => none

/-- Embedding of the `rpm_lo, rpm_hi` initialisation of `run_time_sim`:
the given bounds, or `(min speeds, max speeds)` (`none` models the
`ValueError` Python's `min`/`max` raise on an empty sequence). -/
def rpmBoundsOf (rpm_bounds : Option (ℚ × ℚ)) (speeds_rpm : List ℚ) :
    Option (ℚ × ℚ) :=
  match rpm_bounds with
  | some b => some b
  | none =>
      match pyMinBy id speeds_rpm, pyMaxBy id speeds_rpm with
      | some lo, some hi => some (lo, hi)
      | _, _ => none

/-- Integration timestep of `run_time_sim`: median of the consecutive
timestamp differences when there is more than one sample, else 1. -/
def dtOf (t : List ℚ) : ℚ :=
  if 1 < t.length then median (consecDiffs t) else 1

/-- Embedding of the inner `_agg` of `run_time_sim`, applied to the frame
list through per-strategy projections. -/
def aggOf (frames : List Frame) (dt lambda_shortfall : ℚ)
    (P Q s o : Frame → ℚ) (c : Frame → Bool) : AggMetrics :=
  let Wh := ((frames.map P).sum * dt) / 3600
  let cfmh_delivered := ((frames.map Q).sum * dt) / 3600
  let cfmh_shortfall := ((frames.map s).sum * dt) / 3600
  let cfmh_oversupply := ((frames.map o).sum * dt) / 3600
  let compliance_pct :=
    100 * ((frames.countP (fun f => c f) : ℚ) / (frames.length : ℚ))
  { Wh := Wh, cfmh_delivered := cfmh_delivered,
    cfmh_shortfall := cfmh_shortfall, cfmh_oversupply := cfmh_oversupply,
    compliance_pct := compliance_pct,
    SFP := Wh / max cfmh_delivered (1 / 1000000000),
    objective := Wh + lambda_shortfall * cfmh_shortfall }

/-- The metrics dictionary `run_time_sim` assembles from the frame table:
one `_agg` record per strategy plus the `eps_cfm` and `lambda_shortfall`
entries. -/
def metricsOf (frames : List Frame) (dt eps_cfm lambda_shortfall : ℚ) : Metrics :=
  { fixed := aggOf frames dt lambda_shortfall
      (fun f => f.P_fixed) (fun f => f.Q_fixed) (fun f => f.s_fixed)
      (fun f => f.o_fixed) (fun f => f.c_fixed),
    modes := aggOf frames dt lambda_shortfall
      (fun f => f.P_modes) (fun f => f.Q_modes) (fun f => f.s_modes)
      (fun f => f.o_modes) (fun f => f.c_modes),
    var := aggOf frames dt lambda_shortfall
      (fun f => f.P_var) (fun f => f.Q_var) (fun f => f.s_var)
      (fun f => f.o_var) (fun f => f.c_var),
    eps_cfm := eps_cfm, lambda_shortfall := lambda_shortfall }

/-- Embedding of the `pd.DataFrame(data)` construction of `run_time_sim`:
after the loop, pandas builds the frame table from the stored columns — the
raw `t`, `Q_demand` and `k_t` series next to the length-`len(t)` per-step
arrays — and raises `ValueError` ("All arrays must be of the same length")
unless every column has the same length, i.e. unless the demand and
resistance series are exactly as long as the timestamp series. -/
def dataFrameCheck (t Q_demand k_t : List ℚ) : Option Unit :=
  if Q_demand.length = t.length ∧ k_t.length = t.length then some () else none

/-- Embedding of `run_time_sim` of `simulate.py`: resolve the continuous
speed bounds, run every timestep in order (an `IndexError` raised by a
series access, or the `ValueError` of the mode selector, becomes `none`),
build the frame table (whose `pd.DataFrame` constructor rejects mismatched
column lengths, `dataFrameCheck`), and aggregate the three strategies. -/
def run_time_sim (fan : FanCurve) (t Q_demand k_t : List ℚ)
    (speeds_rpm : List ℚ) (fixed_rpm P_bep_ref_W N_ref_rpm : ℚ)
    (idle_frac : ℚ := 11 / 50) (gamma_free : ℚ := 2) (x_bep : ℚ := 3 / 5)
    (rpm_bounds : Option (ℚ × ℚ) := none) (eps_cfm : ℚ := 10)
    (lambda_shortfall : ℚ := 3 / 10) : Option (List Frame × Metrics) := do
  let b ← rpmBoundsOf rpm_bounds speeds_rpm
  let dt := dtOf t
  let frames ← seqSteps
    (simStep fan t Q_demand k_t speeds_rpm fixed_rpm P_bep_ref_W N_ref_rpm
      idle_frac gamma_free x_bep b.1 b.2 eps_cfm) (List.range t.length)
  let _ ← dataFrameCheck t Q_demand k_t
  pure (frames, metricsOf frames dt eps_cfm lambda_shortfall)

/-- Speed-independent rescaling of the grid-search objective of
`operating_point_Q`: at speed `N` the absolute fan/system pressure gap at
grid index `i` equals `(N / N_ref)²` times entry `i` of this list (see
`operating_point_Q_repr`), so the argmin index does not depend on `N`. -/
def gridBase (s0 kf : ℚ) (ns n_grid : ℕ) : List ℚ :=
  (List.range n_grid).map (fun i : ℕ =>
    |s0 * max (1 - ((i : ℚ) / ((n_grid : ℚ) - 1)) ^ ns) 0
      - kf * ((i : ℚ) / ((n_grid : ℚ) - 1)) ^ 2|)

/-- Index of the grid point `operating_point_Q` returns, as a function of
the speed-independent data only. -/
def gridIdx (s0 kf : ℚ) (ns n_grid : ℕ) : ℕ := argminIdx (gridBase s0 kf ns n_grid)

/-- Degenerate fan with zero reference free delivery: every operating point
is 0, which keeps concrete whole-simulation runs cheap to evaluate. -/
def fanZ : FanCurve := { Q_free_ref_cfm := 0, dP_shut_ref_Pa := 0, N_ref_rpm := 1200 }

/-- Small concrete fan used in witnesses (reference free delivery 300 cfm,
shutoff 100 Pa, reference speed 1200 rpm, quadratic falloff). -/
def fanA : FanCurve := { Q_free_ref_cfm := 300, dP_shut_ref_Pa := 100, N_ref_rpm := 1200 }

/-- The one frame of the concrete mismatched-length run of the
error-handling analysis (time 0, demand 100, resistance 1). -/
def wFrameC3 : Frame := simFrame fanZ 0 100 1200 (11 / 50) 2 (3 / 5) 0 0 10 0 100 1 (0, 0)

/-- The one frame of the concrete run used by the conservation witness
(time 0, demand 0, resistance 1, all strategies pinned at speed 0 by the
degenerate fan). -/
def wFrameC4 : Frame := simFrame fanZ 0 100 1200 (11 / 50) 2 (3 / 5) 0 0 10 0 0 1 (0, 0)

/-- First frame of the concrete two-step run used by the aggregation
witness. -/
def wFrameC5a : Frame := simFrame fanZ 0 100 1200 (11 / 50) 2 (3 / 5) 0 0 10 0 5 2 (0, 0)

/-- Second frame of the concrete two-step run used by the aggregation
witness. -/
def wFrameC5b : Frame := simFrame fanZ 0 100 1200 (11 / 50) 2 (3 / 5) 0 0 10 1 5 2 (0, 0)

/-- Frame table of the concrete two-step aggregation-witness run. -/
def wFramesC5 : List Frame := [wFrameC5a, wFrameC5b]

/-- Metrics of the concrete two-step aggregation-witness run. -/
def wMetricsC5 : Metrics := metricsOf wFramesC5 (dtOf [0, 1]) 10 (2 / 5)

/-- Decomposition of the Python-min scan: the result is the first element of
minimal key — strictly smaller than every key before it, at most every key
after it. -/
theorem pyMinByGo_decomp {α : Type} (f : α → ℚ) :
    ∀ (xs : List α) (b : α),
      ∃ l1 z l2, b :: xs = l1 ++ z :: l2 ∧ pyMinByGo f b xs = z ∧
        (∀ w ∈ l1, f z < f w) ∧ (∀ w ∈ l2, f z ≤ f w)
  | [], b => ⟨[], b, [], rfl, rfl, by simp, by simp⟩
  | x :: xs, b => by
      by_cases h : f x < f b
      · obtain ⟨l1, z, l2, hdec, hgo, h1, h2⟩ := pyMinByGo_decomp f xs x
        have hzb : f z < f b := by
          cases l1 with
          | nil =>
              obtain ⟨rfl, rfl⟩ := List.cons.injEq .. ▸ hdec
              exact h
          | cons a l1t =>
              have hx : x = a := by
                simpa using congrArg List.head? hdec
              exact lt_trans (h1 a (by simp)) (hx ▸ h)
        refine ⟨b :: l1, z, l2, by simp [hdec], ?_, ?_, h2⟩
        · simp [pyMinByGo, if_pos h, hgo]
        · intro w hw
          rcases List.mem_cons.mp hw with rfl | hw
          · exact hzb
          · exact h1 w hw
      · obtain ⟨l1, z, l2, hdec, hgo, h1, h2⟩ := pyMinByGo_decomp f xs b
        have hgo2 : pyMinByGo f b (x :: xs) = z := by
          simp [pyMinByGo, if_neg h, hgo]
        cases l1 with
        | nil =>
            obtain ⟨rfl, rfl⟩ := List.cons.injEq .. ▸ hdec
            refine ⟨[], b, x :: xs, by simp, hgo2, by simp, ?_⟩
            intro w hw
            rcases List.mem_cons.mp hw with rfl | hw
            · exact not_lt.mp h
            · exact h2 w hw
        | cons a l1t =>
            have hba : b = a := by
              simpa using congrArg List.head? hdec
            have hxs : xs = l1t ++ z :: l2 := by
              simpa using congrArg List.tail hdec
            refine ⟨b :: x :: l1t, z, l2, by simp [hxs], hgo2, ?_, h2⟩
            intro w hw
            have hzb : f z < f b := hba ▸ h1 a (by simp)
            rcases List.mem_cons.mp hw with rfl | hw
            · exact hzb
            · rcases List.mem_cons.mp hw with rfl | hw
              · exact lt_of_lt_of_le hzb (not_lt.mp h)
              · exact h1 w (by simp [hw])

/-- On a non-empty list, `pyMinBy` returns the first element of minimal key. -/
theorem pyMinBy_decomp {α : Type} (f : α → ℚ) (l : List α) (hl : l ≠ []) :
    ∃ l1 z l2, l = l1 ++ z :: l2 ∧ pyMinBy f l = some z ∧
      (∀ w ∈ l1, f z < f w) ∧ (∀ w ∈ l2, f z ≤ f w) := by
  cases l with
  | nil => exact absurd rfl hl
  | cons x xs =>
      obtain ⟨l1, z, l2, hdec, hgo, h1, h2⟩ := pyMinByGo_decomp f xs x
      exact ⟨l1, z, l2, hdec, by simp [pyMinBy, hgo], h1, h2⟩

/-- Decomposition of the Python-max scan: the result is the first element of
maximal key. -/
theorem pyMaxByGo_decomp {α : Type} (f : α → ℚ) :
    ∀ (xs : List α) (b : α),
      ∃ l1 z l2, b :: xs = l1 ++ z :: l2 ∧ pyMaxByGo f b xs = z ∧
        (∀ w ∈ l1, f w < f z) ∧ (∀ w ∈ l2, f w ≤ f z)
  | [], b => ⟨[], b, [], rfl, rfl, by simp, by simp⟩
  | x :: xs, b => by
      by_cases h : f b < f x
      · obtain ⟨l1, z, l2, hdec, hgo, h1, h2⟩ := pyMaxByGo_decomp f xs x
        have hzb : f b < f z := by
          cases l1 with
          | nil =>
              obtain ⟨rfl, rfl⟩ := List.cons.injEq .. ▸ hdec
              exact h
          | cons a l1t =>
              have hx : x = a := by
                simpa using congrArg List.head? hdec
              exact lt_trans (hx ▸ h) (h1 a (by simp))
        refine ⟨b :: l1, z, l2, by simp [hdec], ?_, ?_, h2⟩
        · simp [pyMaxByGo, if_pos h, hgo]
        · intro w hw
          rcases List.mem_cons.mp hw with rfl | hw
          · exact hzb
          · exact h1 w hw
      · obtain ⟨l1, z, l2, hdec, hgo, h1, h2⟩ := pyMaxByGo_decomp f xs b
        have hgo2 : pyMaxByGo f b (x :: xs) = z := by
          simp [pyMaxByGo, if_neg h, hgo]
        cases l1 with
        | nil =>
            obtain ⟨rfl, rfl⟩ := List.cons.injEq .. ▸ hdec
            refine ⟨[], b, x :: xs, by simp, hgo2, by simp, ?_⟩
            intro w hw
            rcases List.mem_cons.mp hw with rfl | hw
            · exact not_lt.mp h
            · exact h2 w hw
        | cons a l1t =>
            have hba : b = a := by
              simpa using congrArg List.head? hdec
            have hxs : xs = l1t ++ z :: l2 := by
              simpa using congrArg List.tail hdec
            refine ⟨b :: x :: l1t, z, l2, by simp [hxs], hgo2, ?_, h2⟩
            intro w hw
            have hzb : f b < f z := hba ▸ h1 a (by simp)
            rcases List.mem_cons.mp hw with rfl | hw
            · exact hzb
            · rcases List.mem_cons.mp hw with rfl | hw
              · exact lt_of_le_of_lt (not_lt.mp h) hzb
              · exact h1 w (by simp [hw])

/-- On a non-empty list, `pyMaxBy` returns the first element of maximal key. -/
theorem pyMaxBy_decomp {α : Type} (f : α → ℚ) (l : List α) (hl : l ≠ []) :
    ∃ l1 z l2, l = l1 ++ z :: l2 ∧ pyMaxBy f l = some z ∧
      (∀ w ∈ l1, f w < f z) ∧ (∀ w ∈ l2, f w ≤ f z) := by
  cases l with
  | nil => exact absurd rfl hl
  | cons x xs =>
      obtain ⟨l1, z, l2, hdec, hgo, h1, h2⟩ := pyMaxByGo_decomp f xs x
      exact ⟨l1, z, l2, hdec, by simp [pyMaxBy, hgo], h1, h2⟩

/-- C1: for every fan, resistance coefficient, non-empty ordered list of discrete
speeds, target airflow and tolerance, `choose_mode_min_power` computes the
operating airflow and power at every listed speed (`modeTriples`) and calls a
speed feasible exactly when its operating airflow is ≥ target − tolerance
(`modeFeasible`); when at least one speed is feasible it returns the feasible
triple of minimum power (on exact power ties, the first in list order), and when
none is feasible it returns the triple of maximal operating airflow, regardless
of its power. -/
theorem choose_mode_min_power_spec (fan : FanCurve) (k : ℚ) (speeds_rpm : List ℚ)
    (Q_target eps_cfm : ℚ) (power_fn : FanCurve → ℚ → ℚ → ℚ → ℚ → ℚ)
    (P_bep_ref_W N_ref_rpm : ℚ) (hne : speeds_rpm ≠ []) :
    (modeFeasible fan k speeds_rpm Q_target eps_cfm power_fn P_bep_ref_W N_ref_rpm ≠ [] →
      ∃ l1 z l2,
        modeFeasible fan k speeds_rpm Q_target eps_cfm power_fn P_bep_ref_W N_ref_rpm
          = l1 ++ z :: l2 ∧
        choose_mode_min_power fan k speeds_rpm Q_target eps_cfm power_fn P_bep_ref_W N_ref_rpm
          = some (z.1, z.2.1) ∧
        (∀ w ∈ l1, z.2.2 < w.2.2) ∧ (∀ w ∈ l2, z.2.2 ≤ w.2.2)) ∧
    (modeFeasible fan k speeds_rpm Q_target eps_cfm power_fn P_bep_ref_W N_ref_rpm = [] →
      ∃ l1 z l2,
        modeTriples fan k speeds_rpm power_fn P_bep_ref_W N_ref_rpm = l1 ++ z :: l2 ∧
        choose_mode_min_power fan k speeds_rpm Q_target eps_cfm power_fn P_bep_ref_W N_ref_rpm
          = some (z.1, z.2.1) ∧
        (∀ w ∈ l1, w.2.1 < z.2.1) ∧ (∀ w ∈ l2, w.2.1 ≤ z.2.1)) := by
  constructor
  · intro hfe
    obtain ⟨l1, z, l2, hdec, hmin, h1, h2⟩ := pyMinBy_decomp (fun z => z.2.2) _ hfe
    exact ⟨l1, z, l2, hdec, by simp [choose_mode_min_power, hmin], h1, h2⟩
  · intro hfe
    have htr : modeTriples fan k speeds_rpm power_fn P_bep_ref_W N_ref_rpm ≠ [] := by
      simp [modeTriples, hne]
    obtain ⟨l1, z, l2, hdec, hmax, h1, h2⟩ := pyMaxBy_decomp (fun z => z.2.1) _ htr
    have hnone : pyMinBy (fun z : ℚ × ℚ × ℚ => z.2.2)
        (modeFeasible fan k speeds_rpm Q_target eps_cfm power_fn P_bep_ref_W N_ref_rpm)
        = none := by
      rw [hfe]; rfl
    exact ⟨l1, z, l2, hdec, by simp [choose_mode_min_power, hnone, hmax], h1, h2⟩

/-- C10: with an empty list of mode speeds `choose_mode_min_power` returns no
(speed, airflow) pair — `none`, modelling the `ValueError` Python's `max` raises
on an empty sequence — while for every non-empty speed list it returns a pair;
the selector is total only for non-empty speed lists. -/
theorem choose_mode_min_power_empty (fan : FanCurve) (k Q_target eps_cfm : ℚ)
    (power_fn : FanCurve → ℚ → ℚ → ℚ → ℚ → ℚ) (P_bep_ref_W N_ref_rpm : ℚ) :
    choose_mode_min_power fan k [] Q_target eps_cfm power_fn P_bep_ref_W N_ref_rpm = none ∧
    ∀ speeds_rpm : List ℚ, speeds_rpm ≠ [] →
      (choose_mode_min_power fan k speeds_rpm Q_target eps_cfm power_fn
        P_bep_ref_W N_ref_rpm).isSome = true := by
  constructor
  · rfl
  · intro speeds hne
    rcases hmatch : pyMinBy (fun z : ℚ × ℚ × ℚ => z.2.2)
        (modeFeasible fan k speeds Q_target eps_cfm power_fn P_bep_ref_W N_ref_rpm) with
      _ | z
    · have htr : modeTriples fan k speeds power_fn P_bep_ref_W N_ref_rpm ≠ [] := by
        simp [modeTriples, hne]
      obtain ⟨l1, z, l2, hdec, hmax, h1, h2⟩ := pyMaxBy_decomp (fun z => z.2.1) _ htr
      simp [choose_mode_min_power, hmatch, hmax]
    · simp [choose_mode_min_power, hmatch]

/-- C2: `solve_rpm_for_Q` first evaluates the operating airflows `Q_lo` at
`rpm_lo` and `Q_hi` at `rpm_hi`; whenever target ≤ Q_lo + tolerance it returns
exactly `(rpm_lo, Q_lo)` without bisecting, and whenever target > Q_lo +
tolerance and target ≥ Q_hi − tolerance it returns exactly `(rpm_hi, Q_hi)`
without bisecting — in particular a target above the maximum achievable airflow
at `rpm_hi` yields `(rpm_hi, Q_hi)`. -/
theorem solve_rpm_for_Q_clamp (fan : FanCurve) (k Q_target rpm_lo rpm_hi eps_cfm : ℚ)
    (iters : ℕ) :
    (Q_target ≤ operating_point_Q fan k rpm_lo + eps_cfm →
      solve_rpm_for_Q fan k Q_target rpm_lo rpm_hi eps_cfm iters
        = (rpm_lo, operating_point_Q fan k rpm_lo)) ∧
    (operating_point_Q fan k rpm_lo + eps_cfm < Q_target →
      operating_point_Q fan k rpm_hi - eps_cfm ≤ Q_target →
      solve_rpm_for_Q fan k Q_target rpm_lo rpm_hi eps_cfm iters
        = (rpm_hi, operating_point_Q fan k rpm_hi)) := by
  constructor
  · intro h
    simp only [solve_rpm_for_Q]
    rw [if_pos h]
  · intro h1 h2
    simp only [solve_rpm_for_Q]
    rw [if_neg (not_le.mpr h1), if_pos h2]

/-- Witness for the clamping theorem: both clamp branches realised on a
concrete degenerate fan. -/
theorem solve_rpm_for_Q_clamp_witness :
    (solve_rpm_for_Q fanZ 1 5 0 0 10 24 = (0, operating_point_Q fanZ 1 0)) ∧
    (solve_rpm_for_Q fanZ 1 30 0 0 10 24 = (0, operating_point_Q fanZ 1 0)) :=
  ⟨(solve_rpm_for_Q_clamp fanZ 1 5 0 0 10 24).1
      (by norm_num [operating_point_Q, FanCurve.free_delivery_cfm, fanZ]),
   (solve_rpm_for_Q_clamp fanZ 1 30 0 0 10 24).2
      (by norm_num [operating_point_Q, FanCurve.free_delivery_cfm, fanZ])
      (by norm_num [operating_point_Q, FanCurve.free_delivery_cfm, fanZ])⟩

/-- Witness for the mode-selector theorem at a concrete input. -/
theorem choose_mode_min_power_spec_witness :
    (modeFeasible fanZ 1 [0] 100 10 (fun f q r pb nr => power_model_convex f q r pb nr) 100 1200 ≠ [] →
      ∃ l1 z l2,
        modeFeasible fanZ 1 [0] 100 10 (fun f q r pb nr => power_model_convex f q r pb nr) 100 1200
          = l1 ++ z :: l2 ∧
        choose_mode_min_power fanZ 1 [0] 100 10 (fun f q r pb nr => power_model_convex f q r pb nr) 100 1200
          = some (z.1, z.2.1) ∧
        (∀ w ∈ l1, z.2.2 < w.2.2) ∧ (∀ w ∈ l2, z.2.2 ≤ w.2.2)) ∧
    (modeFeasible fanZ 1 [0] 100 10 (fun f q r pb nr => power_model_convex f q r pb nr) 100 1200 = [] →
      ∃ l1 z l2,
        modeTriples fanZ 1 [0] (fun f q r pb nr => power_model_convex f q r pb nr) 100 1200 = l1 ++ z :: l2 ∧
        choose_mode_min_power fanZ 1 [0] 100 10 (fun f q r pb nr => power_model_convex f q r pb nr) 100 1200
          = some (z.1, z.2.1) ∧
        (∀ w ∈ l1, w.2.1 < z.2.1) ∧ (∀ w ∈ l2, w.2.1 ≤ z.2.1)) :=
  choose_mode_min_power_spec fanZ 1 [0] 100 10
    (fun f q r pb nr => power_model_convex f q r pb nr) 100 1200 (by simp)

/-- Witness for the empty-speed-list theorem at concrete inputs. -/
theorem choose_mode_min_power_empty_witness :
    choose_mode_min_power fanA 1 [] 100 10
      (fun f q r pb nr => power_model_convex f q r pb nr) 100 1200 = none ∧
    (choose_mode_min_power fanA 1 [700] 100 10
      (fun f q r pb nr => power_model_convex f q r pb nr) 100 1200).isSome = true :=
  ⟨(choose_mode_min_power_empty fanA 1 100 10
      (fun f q r pb nr => power_model_convex f q r pb nr) 100 1200).1,
   (choose_mode_min_power_empty fanA 1 100 10
      (fun f q r pb nr => power_model_convex f q r pb nr) 100 1200).2 [700] (by simp)⟩

/-- C9: `FanCurve.dP_at` is total and never negative: for every curve with
non-negative reference shutoff pressure and every airflow and speed of any sign
or magnitude, the pressure rise equals `shutoff_pressure_Pa(speed) ×
max(1 − x^n, 0)` with `x = clip(airflow / max(free_delivery(speed), 1e-9), 0,
10)`, and that value is ≥ 0; no input is rejected. -/
theorem dP_at_total_nonneg (fan : FanCurve) (hs : 0 ≤ fan.dP_shut_ref_Pa) (Q N : ℚ) :
    fan.dP_at Q N =
      fan.shutoff_pressure_Pa N *
        max (1 - (clip (Q / max (fan.free_delivery_cfm N) (1 / 1000000000)) 0 10) ^ fan.n_shape) 0
    ∧ 0 ≤ fan.dP_at Q N := by
  refine ⟨rfl, ?_⟩
  have h1 : 0 ≤ fan.shutoff_pressure_Pa N :=
    mul_nonneg hs (sq_nonneg _)
  exact mul_nonneg h1 (le_max_right _ 0)

/-- Witness for the pressure-curve theorem at a concrete fan and input. -/
theorem dP_at_total_nonneg_witness :
    fanA.dP_at 250 900 =
      fanA.shutoff_pressure_Pa 900 *
        max (1 - (clip (250 / max (fanA.free_delivery_cfm 900) (1 / 1000000000)) 0 10) ^ fanA.n_shape) 0
    ∧ 0 ≤ fanA.dP_at 250 900 :=
  dP_at_total_nonneg fanA (by norm_num [fanA]) 250 900

/-- C6: when `|x_bep² − x_bep|` exceeds the 1e-9 guard, the raw coefficients of
`power_model_convex` are the unique solution of the calibration constraints
`p0 + b1·x_bep + b2·x_bep² = 1` and `p0 + b1 + b2 = γ` with fixed intercept
`p0 = idleFraction`; the fallback `b2 = max(0.2·(γ − 1), 1e-3)` with
`b1 = (γ − p0) − b2` replaces them exactly when `b2 ≤ 0` or `b1 + 2·b2 ≤ 0`;
and, with the free delivery above the ε floor, the returned power equals
`referencePowerAtBEP · (speed/referenceSpeed)³ · (p0 + b1·x + b2·x²)` with
`x = clamp(airflow / freeDelivery(speed), 0, 1)`. -/
theorem power_model_convex_calibration (idle gamma xbep : ℚ)
    (hden : 1 / 1000000000 < |xbep ^ 2 - xbep|)
    (fan : FanCurve) (Q rpm Pb Nr : ℚ)
    (hF : 1 / 1000000000 ≤ fan.free_delivery_cfm rpm) :
    (idle + (power_coeffs_raw idle gamma xbep).1 * xbep
        + (power_coeffs_raw idle gamma xbep).2 * xbep ^ 2 = 1 ∧
      idle + (power_coeffs_raw idle gamma xbep).1 + (power_coeffs_raw idle gamma xbep).2 = gamma) ∧
    (∀ c1 c2 : ℚ, idle + c1 * xbep + c2 * xbep ^ 2 = 1 → idle + c1 + c2 = gamma →
      c1 = (power_coeffs_raw idle gamma xbep).1 ∧ c2 = (power_coeffs_raw idle gamma xbep).2) ∧
    (power_coeffs idle gamma xbep =
      if (power_coeffs_raw idle gamma xbep).2 ≤ 0 ∨
          (power_coeffs_raw idle gamma xbep).1 + 2 * (power_coeffs_raw idle gamma xbep).2 ≤ 0
        then ((gamma - idle) - max (1 / 5 * (gamma - 1)) (1 / 1000),
              max (1 / 5 * (gamma - 1)) (1 / 1000))
        else power_coeffs_raw idle gamma xbep) ∧
    (power_model_convex fan Q rpm Pb Nr idle gamma xbep =
      Pb * (rpm / Nr) ^ 3 *
        (idle + (power_coeffs idle gamma xbep).1 * clip (Q / fan.free_delivery_cfm rpm) 0 1
          + (power_coeffs idle gamma xbep).2 * (clip (Q / fan.free_delivery_cfm rpm) 0 1) ^ 2)) := by
  have hd0 : xbep ^ 2 - xbep ≠ 0 := abs_pos.mp (lt_trans (by norm_num) hden)
  have hraw : power_coeffs_raw idle gamma xbep =
      ((gamma - idle) - (1 - idle - xbep * (gamma - idle)) / (xbep ^ 2 - xbep),
       (1 - idle - xbep * (gamma - idle)) / (xbep ^ 2 - xbep)) := by
    simp only [power_coeffs_raw, if_pos hden]
  refine ⟨⟨?_, ?_⟩, ?_, rfl, ?_⟩
  · rw [hraw]
    field_simp
    ring
  · rw [hraw]
    ring
  · intro c1 c2 e1 e2
    have hc2 : c2 = (1 - idle - xbep * (gamma - idle)) / (xbep ^ 2 - xbep) := by
      rw [eq_div_iff hd0]
      linear_combination e1 - xbep * e2
    have hc1 : c1 = (gamma - idle) - (1 - idle - xbep * (gamma - idle)) / (xbep ^ 2 - xbep) := by
      rw [← hc2]
      linarith [e2]
    rw [hraw]
    exact ⟨hc1, hc2⟩
  · simp only [power_model_convex, max_eq_left hF]

/-- Witness for the calibration theorem at the default shape parameters. -/
theorem power_model_convex_calibration_witness :
    ((11 / 50 : ℚ) + (power_coeffs_raw (11 / 50) 2 (3 / 5)).1 * (3 / 5)
        + (power_coeffs_raw (11 / 50) 2 (3 / 5)).2 * (3 / 5 : ℚ) ^ 2 = 1 ∧
      (11 / 50 : ℚ) + (power_coeffs_raw (11 / 50) 2 (3 / 5)).1 + (power_coeffs_raw (11 / 50) 2 (3 / 5)).2 = 2) ∧
    (∀ c1 c2 : ℚ, (11 / 50 : ℚ) + c1 * (3 / 5) + c2 * (3 / 5 : ℚ) ^ 2 = 1 →
      (11 / 50 : ℚ) + c1 + c2 = 2 →
      c1 = (power_coeffs_raw (11 / 50) 2 (3 / 5)).1 ∧ c2 = (power_coeffs_raw (11 / 50) 2 (3 / 5)).2) ∧
    (power_coeffs (11 / 50) 2 (3 / 5) =
      if (power_coeffs_raw (11 / 50) 2 (3 / 5)).2 ≤ 0 ∨
          (power_coeffs_raw (11 / 50) 2 (3 / 5)).1 + 2 * (power_coeffs_raw (11 / 50) 2 (3 / 5)).2 ≤ 0
        then (((2 : ℚ) - 11 / 50) - max (1 / 5 * ((2 : ℚ) - 1)) (1 / 1000),
              max (1 / 5 * ((2 : ℚ) - 1)) (1 / 1000))
        else power_coeffs_raw (11 / 50) 2 (3 / 5)) ∧
    (power_model_convex fanA 100 900 40 1200 (11 / 50) 2 (3 / 5) =
      40 * ((900 : ℚ) / 1200) ^ 3 *
        (11 / 50 + (power_coeffs (11 / 50) 2 (3 / 5)).1 * clip (100 / fanA.free_delivery_cfm 900) 0 1
          + (power_coeffs (11 / 50) 2 (3 / 5)).2 * (clip (100 / fanA.free_delivery_cfm 900) 0 1) ^ 2)) :=
  power_model_convex_calibration (11 / 50) 2 (3 / 5) (by norm_num [abs_of_pos]) fanA 100 900 40 1200
    (by norm_num [FanCurve.free_delivery_cfm, fanA])

/-- C7 counterexample: with idleFraction −1 (an allowed "any" parameter value
under the claim), default γ = 2 and x_bep = 3/5, non-negative reference power
100 and speed = reference speed, `power_model_convex` returns a negative power
at zero airflow, refuting the unconditional non-negativity contract. -/
theorem power_model_convex_negative_example :
    power_model_convex fanA 0 1200 100 1200 (-1) 2 (3 / 5) < 0 := by
  norm_num [power_model_convex, power_coeffs, power_coeffs_raw,
    FanCurve.free_delivery_cfm, clip, fanA]

/-- C7 (amended): `power_model_convex` returns a non-negative power for every
fan, airflow and speed whenever the reference power is non-negative, the
speed/reference-speed ratio is non-negative, and the idle fraction and both
effective quadratic coefficients (after the fallback) are non-negative — which
holds in particular for the default shape parameters (0.22, 2.0, 0.6). -/
theorem power_model_convex_nonneg (fan : FanCurve) (Q rpm Pb Nr idle gamma xbep : ℚ)
    (hPb : 0 ≤ Pb) (hr : 0 ≤ rpm / Nr) (h0 : 0 ≤ idle)
    (hb1 : 0 ≤ (power_coeffs idle gamma xbep).1)
    (hb2 : 0 ≤ (power_coeffs idle gamma xbep).2) :
    0 ≤ power_model_convex fan Q rpm Pb Nr idle gamma xbep := by
  have hx : (0 : ℚ) ≤ clip (Q / max (fan.free_delivery_cfm rpm) (1 / 1000000000)) 0 1 :=
    le_min (le_max_right _ _) zero_le_one
  simp only [power_model_convex]
  exact mul_nonneg (mul_nonneg hPb (pow_nonneg hr 3))
    (add_nonneg (add_nonneg h0 (mul_nonneg hb1 hx))
      (mul_nonneg hb2 (pow_nonneg hx 2)))

/-- Witness for the amended non-negativity theorem at a concrete input. -/
theorem power_model_convex_nonneg_witness :
    0 ≤ power_model_convex fanA 50 900 40 1200 (11 / 50) 2 (3 / 5) :=
  power_model_convex_nonneg fanA 50 900 40 1200 (11 / 50) 2 (3 / 5)
    (by norm_num) (by norm_num) (by norm_num)
    (by norm_num [power_coeffs, power_coeffs_raw, abs_of_pos])
    (by norm_num [power_coeffs, power_coeffs_raw, abs_of_pos])

/-- Scaling every entry by a positive constant leaves the argmin scan's result
unchanged. -/
theorem argminAux_map_mul (c : ℚ) (hc : 0 < c) :
    ∀ (l : List ℚ) (i bi : ℕ) (bv : ℚ),
      argminAux (l.map (fun x => c * x)) i bi (c * bv) = argminAux l i bi bv
  | [], _, _, _ => rfl
  | x :: xs, i, bi, bv => by
      rw [List.map_cons]
      simp only [argminAux]
      by_cases h : x < bv
      · rw [if_pos ((mul_lt_mul_left hc).mpr h), if_pos h]
        exact argminAux_map_mul c hc xs (i + 1) i x
      · rw [if_neg (fun hcx => h ((mul_lt_mul_left hc).mp hcx)), if_neg h]
        exact argminAux_map_mul c hc xs (i + 1) bi bv

/-- Scaling a list by a positive constant leaves the argmin index unchanged. -/
theorem argminIdx_map_mul (c : ℚ) (hc : 0 < c) (l : List ℚ) :
    argminIdx (l.map (fun x => c * x)) = argminIdx l := by
  cases l with
  | nil => rfl
  | cons x xs =>
      rw [List.map_cons]
      simp only [argminIdx]
      exact argminAux_map_mul c hc xs 1 0 x

/-- The argmin scan returns an index below the end of the scanned range. -/
theorem argminAux_lt : ∀ (l : List ℚ) (i bi : ℕ) (bv : ℚ), bi < i →
    argminAux l i bi bv < i + l.length
  | [], i, bi, bv, h => by simpa using h
  | x :: xs, i, bi, bv, h => by
      simp only [argminAux, List.length_cons]
      by_cases hx : x < bv
      · rw [if_pos hx]
        have := argminAux_lt xs (i + 1) i x (Nat.lt_succ_self i)
        omega
      · rw [if_neg hx]
        have := argminAux_lt xs (i + 1) bi bv (Nat.lt_succ_of_lt h)
        omega

/-- On a non-empty list the argmin index is a valid index. -/
theorem argminIdx_lt_length (l : List ℚ) (h : l ≠ []) : argminIdx l < l.length := by
  cases l with
  | nil => exact absurd rfl h
  | cons x xs =>
      have := argminAux_lt xs 1 0 x Nat.zero_lt_one
      simp only [argminIdx, List.length_cons]
      omega

/-- Indexing a mapped range: `((range n).map g).getD i d` is `g i` inside the
range and `d` outside. -/
theorem getD_map_range (g : ℕ → ℚ) (n i : ℕ) (d : ℚ) :
    ((List.range n).map g).getD i d = if i < n then g i else d := by
  by_cases h : i < n
  · rw [if_pos h, List.getD_eq_getElem?_getD]
    simp [List.getElem?_map, List.getElem?_range, h]
  · rw [if_neg h, List.getD_eq_getElem?_getD, List.getElem?_eq_none]
    · rfl
    · simpa using not_lt.mp h

/-- Clipping is the identity inside the clip interval. -/
theorem clip_eq_self (v lo hi : ℚ) (h1 : lo ≤ v) (h2 : v ≤ hi) : clip v lo hi = v := by
  unfold clip
  rw [max_eq_left h1, min_eq_left h2]

/-- At each grid point of `operating_point_Q`, the absolute fan/system pressure
gap at speed `rpm` is `(rpm / N_ref)²` times the speed-independent `gridBase`
entry. -/
theorem grid_point_diff (fan : FanCurve) (k rpm : ℚ) (n i : ℕ) (hi : i < n)
    (hF : 1 / 1000000000 < fan.free_delivery_cfm rpm) :
    |fan.dP_at (0 + (fan.free_delivery_cfm rpm - 0) * i / ((n : ℚ) - 1)) rpm
       - systemDP k (0 + (fan.free_delivery_cfm rpm - 0) * i / ((n : ℚ) - 1))|
      = (rpm / fan.N_ref_rpm) ^ 2 *
        |fan.dP_shut_ref_Pa * max (1 - ((i : ℚ) / ((n : ℚ) - 1)) ^ fan.n_shape) 0
          - k * fan.Q_free_ref_cfm ^ 2 * ((i : ℚ) / ((n : ℚ) - 1)) ^ 2| := by
  have hFpos : (0 : ℚ) < fan.free_delivery_cfm rpm := lt_trans (by norm_num) hF
  have hd0 : (0 : ℚ) ≤ (n : ℚ) - 1 := by
    have : (1 : ℚ) ≤ (n : ℚ) := by exact_mod_cast Nat.one_le_iff_ne_zero.mpr (by omega)
    linarith
  have ht0 : (0 : ℚ) ≤ (i : ℚ) / ((n : ℚ) - 1) := div_nonneg (Nat.cast_nonneg i) hd0
  have ht10 : (i : ℚ) / ((n : ℚ) - 1) ≤ 10 := by
    by_cases hd : ((n : ℚ) - 1) = 0
    · rw [hd, div_zero]
      norm_num
    · have hdpos : (0 : ℚ) < (n : ℚ) - 1 := lt_of_le_of_ne hd0 (Ne.symm hd)
      have hle : (i : ℚ) ≤ (n : ℚ) - 1 := by
        have : (i : ℚ) + 1 ≤ (n : ℚ) := by exact_mod_cast Nat.succ_le_of_lt hi
        linarith
      have := (div_le_one hdpos).mpr hle
      linarith
  have hclip : clip ((i : ℚ) / ((n : ℚ) - 1)) 0 10 = (i : ℚ) / ((n : ℚ) - 1) :=
    clip_eq_self _ _ _ ht0 ht10
  have hq : 0 + (fan.free_delivery_cfm rpm - 0) * i / ((n : ℚ) - 1)
      = fan.free_delivery_cfm rpm * ((i : ℚ) / ((n : ℚ) - 1)) := by ring
  rw [hq]
  have hdP : fan.dP_at (fan.free_delivery_cfm rpm * ((i : ℚ) / ((n : ℚ) - 1))) rpm
      = fan.dP_shut_ref_Pa * (rpm / fan.N_ref_rpm) ^ 2
        * max (1 - ((i : ℚ) / ((n : ℚ) - 1)) ^ fan.n_shape) 0 := by
    simp only [FanCurve.dP_at, FanCurve.shutoff_pressure_Pa, max_eq_left (le_of_lt hF),
      mul_div_cancel_left₀ _ (ne_of_gt hFpos), hclip]
  have hsys : systemDP k (fan.free_delivery_cfm rpm * ((i : ℚ) / ((n : ℚ) - 1)))
      = k * (fan.free_delivery_cfm rpm) ^ 2 * ((i : ℚ) / ((n : ℚ) - 1)) ^ 2 := by
    simp only [systemDP]
    ring
  rw [hdP, hsys]
  have hFdef : fan.free_delivery_cfm rpm
      = fan.Q_free_ref_cfm * (rpm / fan.N_ref_rpm) := rfl
  have harg : fan.dP_shut_ref_Pa * (rpm / fan.N_ref_rpm) ^ 2
        * max (1 - ((i : ℚ) / ((n : ℚ) - 1)) ^ fan.n_shape) 0
      - k * (fan.free_delivery_cfm rpm) ^ 2 * ((i : ℚ) / ((n : ℚ) - 1)) ^ 2
      = (rpm / fan.N_ref_rpm) ^ 2 *
        (fan.dP_shut_ref_Pa * max (1 - ((i : ℚ) / ((n : ℚ) - 1)) ^ fan.n_shape) 0
          - k * fan.Q_free_ref_cfm ^ 2 * ((i : ℚ) / ((n : ℚ) - 1)) ^ 2) := by
    rw [hFdef]
    ring
  rw [harg, abs_mul, abs_of_nonneg (sq_nonneg _)]

/-- Closed form of the grid search: above the free-delivery floor, the returned
airflow is the free delivery at that speed times the speed-independent grid
fraction `gridIdx / (n_grid − 1)`. -/
theorem operating_point_Q_repr (fan : FanCurve) (k rpm : ℚ) (n_grid : ℕ)
    (hF : 1 / 1000000000 < fan.free_delivery_cfm rpm) :
    operating_point_Q fan k rpm n_grid =
      fan.free_delivery_cfm rpm *
        ((gridIdx fan.dP_shut_ref_Pa (k * fan.Q_free_ref_cfm ^ 2) fan.n_shape n_grid : ℚ)
          / ((n_grid : ℚ) - 1)) := by
  have hFpos : (0 : ℚ) < fan.free_delivery_cfm rpm := lt_trans (by norm_num) hF
  have hr : rpm / fan.N_ref_rpm ≠ 0 := by
    intro h0
    have hz : fan.free_delivery_cfm rpm = 0 := by
      rw [show fan.free_delivery_cfm rpm
            = fan.Q_free_ref_cfm * (rpm / fan.N_ref_rpm) from rfl, h0, mul_zero]
    linarith
  have hr2 : 0 < (rpm / fan.N_ref_rpm) ^ 2 := pow_two_pos_of_ne_zero hr
  simp only [operating_point_Q, if_neg (not_le.mpr hF), linspace, List.map_map]
  rw [List.map_congr_left (fun i hi =>
    (by simpa using grid_point_diff fan k rpm n_grid i (List.mem_range.mp hi) hF :
      ((fun q => |fan.dP_at q rpm - systemDP k q|) ∘
        (fun i : ℕ => 0 + (fan.free_delivery_cfm rpm - 0) * i / ((n_grid : ℚ) - 1))) i
      = (rpm / fan.N_ref_rpm) ^ 2 *
        |fan.dP_shut_ref_Pa * max (1 - ((i : ℚ) / ((n_grid : ℚ) - 1)) ^ fan.n_shape) 0
          - k * fan.Q_free_ref_cfm ^ 2 * ((i : ℚ) / ((n_grid : ℚ) - 1)) ^ 2|))]
  rw [show (List.range n_grid).map (fun i : ℕ =>
        (rpm / fan.N_ref_rpm) ^ 2 *
          |fan.dP_shut_ref_Pa * max (1 - ((i : ℚ) / ((n_grid : ℚ) - 1)) ^ fan.n_shape) 0
            - k * fan.Q_free_ref_cfm ^ 2 * ((i : ℚ) / ((n_grid : ℚ) - 1)) ^ 2|)
      = (gridBase fan.dP_shut_ref_Pa (k * fan.Q_free_ref_cfm ^ 2) fan.n_shape n_grid).map
          (fun x => (rpm / fan.N_ref_rpm) ^ 2 * x) from by
    rw [gridBase, List.map_map]
    rfl]
  rw [argminIdx_map_mul _ hr2]
  rcases Nat.eq_zero_or_pos n_grid with rfl | hn
  · simp [gridIdx, gridBase, argminIdx]
  · have hlt : gridIdx fan.dP_shut_ref_Pa (k * fan.Q_free_ref_cfm ^ 2) fan.n_shape n_grid
        < n_grid := by
      have hne : gridBase fan.dP_shut_ref_Pa (k * fan.Q_free_ref_cfm ^ 2) fan.n_shape n_grid
          ≠ [] := by
        have : (gridBase fan.dP_shut_ref_Pa (k * fan.Q_free_ref_cfm ^ 2) fan.n_shape
            n_grid).length = n_grid := by simp [gridBase]
        intro hcon
        rw [hcon] at this
        simp at this
        omega
      have := argminIdx_lt_length _ hne
      simpa [gridBase] using this
    have hgi : argminIdx (gridBase fan.dP_shut_ref_Pa (k * fan.Q_free_ref_cfm ^ 2)
        fan.n_shape n_grid) = gridIdx fan.dP_shut_ref_Pa (k * fan.Q_free_ref_cfm ^ 2)
        fan.n_shape n_grid := rfl
    rw [hgi, getD_map_range, if_pos hlt]
    ring

/-- C8: for a fixed resistance coefficient, `operating_point_Q` is
non-decreasing in speed over the positive speed range where the fan's free
delivery exceeds the 1e-9 floor: the grid-search objective scales by
`(N/N_ref)²`, so the argmin index is speed-independent and the returned
airflow scales with the (increasing) free delivery. -/
theorem operating_point_Q_monotone (fan : FanCurve) (k : ℚ) (n_grid : ℕ) (N1 N2 : ℚ)
    (hNr : 0 < fan.N_ref_rpm) (h1 : 0 < N1) (h12 : N1 ≤ N2)
    (hF : 1 / 1000000000 < fan.free_delivery_cfm N1) :
    operating_point_Q fan k N1 n_grid ≤ operating_point_Q fan k N2 n_grid := by
  have hrpos : 0 < N1 / fan.N_ref_rpm := div_pos h1 hNr
  have hFpos : (0 : ℚ) < fan.Q_free_ref_cfm * (N1 / fan.N_ref_rpm) :=
    lt_trans (by norm_num) hF
  have hf0 : 0 < fan.Q_free_ref_cfm := by
    rcases mul_pos_iff.mp hFpos with ⟨ha, _⟩ | ⟨_, hb⟩
    · exact ha
    · linarith
  have hmono : fan.free_delivery_cfm N1 ≤ fan.free_delivery_cfm N2 := by
    unfold FanCurve.free_delivery_cfm
    have hdiv : N1 / fan.N_ref_rpm ≤ N2 / fan.N_ref_rpm := by gcongr
    exact mul_le_mul_of_nonneg_left hdiv (le_of_lt hf0)
  have hF2 : 1 / 1000000000 < fan.free_delivery_cfm N2 := lt_of_lt_of_le hF hmono
  rw [operating_point_Q_repr fan k N1 n_grid hF, operating_point_Q_repr fan k N2 n_grid hF2]
  apply mul_le_mul_of_nonneg_right hmono
  rcases Nat.eq_zero_or_pos n_grid with rfl | hn
  · norm_num [gridIdx, gridBase, argminIdx]
  · apply div_nonneg (Nat.cast_nonneg _)
    have : (1 : ℚ) ≤ (n_grid : ℚ) := by exact_mod_cast hn
    linarith

/-- Every frame of a successful step sequence comes from some step index. -/
theorem seqSteps_mem (g : ℕ → Option Frame) :
    ∀ (l : List ℕ) (out : List Frame), seqSteps g l = some out →
      ∀ f ∈ out, ∃ i ∈ l, g i = some f
  | [], out, h => by
      simp only [seqSteps, Option.some.injEq] at h
      subst h
      intro f hf
      simp at hf
  | i :: is, out, h => by
      simp only [seqSteps] at h
      rcases hg : g i with _ | f0 <;> rw [hg] at h
      · cases h
      · rcases hs : seqSteps g is with _ | fs <;> rw [hs] at h
        · cases h
        · simp only [Option.some.injEq] at h
          subst h
          intro f hf
          rcases List.mem_cons.mp hf with rfl | hf
          · exact ⟨i, by simp, hg⟩
          · obtain ⟨j, hj, hgj⟩ := seqSteps_mem g is fs hs f hf
            exact ⟨j, by simp [hj], hgj⟩

/-- A successful `simStep` is exactly a `simFrame` of that step's series
values and mode-selector result. -/
theorem simStep_inv (fan : FanCurve) (t Q_demand k_t speeds_rpm : List ℚ)
    (fixed_rpm P_bep_ref_W N_ref_rpm idle_frac gamma_free x_bep rpm_lo rpm_hi eps_cfm : ℚ)
    (i : ℕ) (f : Frame)
    (h : simStep fan t Q_demand k_t speeds_rpm fixed_rpm P_bep_ref_W N_ref_rpm
      idle_frac gamma_free x_bep rpm_lo rpm_hi eps_cfm i = some f) :
    ∃ k Qd mode, k_t.get? i = some k ∧ Q_demand.get? i = some Qd ∧
      choose_mode_min_power fan k speeds_rpm Qd eps_cfm
        (fun f q r pb nr => power_model_convex f q r pb nr) P_bep_ref_W N_ref_rpm
        = some mode ∧
      f = simFrame fan fixed_rpm P_bep_ref_W N_ref_rpm idle_frac gamma_free x_bep
        rpm_lo rpm_hi eps_cfm (t.getD i 0) Qd k mode := by
  simp only [simStep, Option.bind_eq_bind, Option.bind_eq_some, Option.pure_def,
    Option.some.injEq] at h
  obtain ⟨k, hk, Qd, hq, mode, hm, hf⟩ := h
  exact ⟨k, Qd, mode, hk, hq, hm, hf.symm⟩

/-- Per-frame conservation: a compliant strategy entry of `simFrame` has zero
shortfall and zero oversupply. -/
theorem simFrame_conservation (fan : FanCurve)
    (fixed_rpm P_bep_ref_W N_ref_rpm idle_frac gamma_free x_bep rpm_lo rpm_hi
     eps_cfm ti Qd k : ℚ) (mode : ℚ × ℚ) :
    ((simFrame fan fixed_rpm P_bep_ref_W N_ref_rpm idle_frac gamma_free x_bep
        rpm_lo rpm_hi eps_cfm ti Qd k mode).c_fixed = true →
      (simFrame fan fixed_rpm P_bep_ref_W N_ref_rpm idle_frac gamma_free x_bep
        rpm_lo rpm_hi eps_cfm ti Qd k mode).s_fixed = 0 ∧
      (simFrame fan fixed_rpm P_bep_ref_W N_ref_rpm idle_frac gamma_free x_bep
        rpm_lo rpm_hi eps_cfm ti Qd k mode).o_fixed = 0) ∧
    ((simFrame fan fixed_rpm P_bep_ref_W N_ref_rpm idle_frac gamma_free x_bep
        rpm_lo rpm_hi eps_cfm ti Qd k mode).c_modes = true →
      (simFrame fan fixed_rpm P_bep_ref_W N_ref_rpm idle_frac gamma_free x_bep
        rpm_lo rpm_hi eps_cfm ti Qd k mode).s_modes = 0 ∧
      (simFrame fan fixed_rpm P_bep_ref_W N_ref_rpm idle_frac gamma_free x_bep
        rpm_lo rpm_hi eps_cfm ti Qd k mode).o_modes = 0) ∧
    ((simFrame fan fixed_rpm P_bep_ref_W N_ref_rpm idle_frac gamma_free x_bep
        rpm_lo rpm_hi eps_cfm ti Qd k mode).c_var = true →
      (simFrame fan fixed_rpm P_bep_ref_W N_ref_rpm idle_frac gamma_free x_bep
        rpm_lo rpm_hi eps_cfm ti Qd k mode).s_var = 0 ∧
      (simFrame fan fixed_rpm P_bep_ref_W N_ref_rpm idle_frac gamma_free x_bep
        rpm_lo rpm_hi eps_cfm ti Qd k mode).o_var = 0) := by
  refine ⟨?_, ?_, ?_⟩ <;>
    · simp only [simFrame]
      intro hc
      rw [decide_eq_true_iff] at hc
      obtain ⟨hl, hr⟩ := abs_le.mp hc
      constructor
      · rw [max_eq_left (by linarith)]
      · rw [max_eq_left (by linarith)]

/-- A successful `run_time_sim` is exactly: resolved speed bounds, the frame
sequence of its steps, and `metricsOf` over those frames. -/
theorem run_time_sim_inv (fan : FanCurve) (t Q_demand k_t speeds_rpm : List ℚ)
    (fixed_rpm P_bep_ref_W N_ref_rpm idle_frac gamma_free x_bep : ℚ)
    (rpm_bounds : Option (ℚ × ℚ)) (eps_cfm lambda_shortfall : ℚ)
    (F : List Frame) (M : Metrics)
    (h : run_time_sim fan t Q_demand k_t speeds_rpm fixed_rpm P_bep_ref_W N_ref_rpm
      idle_frac gamma_free x_bep rpm_bounds eps_cfm lambda_shortfall = some (F, M)) :
    ∃ b, rpmBoundsOf rpm_bounds speeds_rpm = some b ∧
      seqSteps (simStep fan t Q_demand k_t speeds_rpm fixed_rpm P_bep_ref_W N_ref_rpm
          idle_frac gamma_free x_bep b.1 b.2 eps_cfm) (List.range t.length) = some F ∧
      M = metricsOf F (dtOf t) eps_cfm lambda_shortfall := by
  simp only [run_time_sim, Option.bind_eq_bind, Option.bind_eq_some, Option.pure_def,
    Option.some.injEq, Prod.mk.injEq] at h
  obtain ⟨b, hb, Fr, hF, u, hu, hFr, hM⟩ := h
  subst hFr
  exact ⟨b, hb, hF, hM.symm⟩

/-- C4: for every frame produced by a successful `run_time_sim`, every
strategy, and the demand, delivered airflow and tolerance of that step: when
the step is compliant (|delivered − demand| ≤ tolerance), its shortfall
`max 0 (demand − delivered − tolerance)` and oversupply
`max 0 (delivered − demand − tolerance)` are both exactly 0 — so
shortfall × compliant = 0 and oversupply × compliant = 0 on every frame. -/
theorem run_time_sim_conservation (fan : FanCurve) (t Q_demand k_t speeds_rpm : List ℚ)
    (fixed_rpm P_bep_ref_W N_ref_rpm idle_frac gamma_free x_bep : ℚ)
    (rpm_bounds : Option (ℚ × ℚ)) (eps_cfm lambda_shortfall : ℚ)
    (F : List Frame) (M : Metrics)
    (h : run_time_sim fan t Q_demand k_t speeds_rpm fixed_rpm P_bep_ref_W N_ref_rpm
      idle_frac gamma_free x_bep rpm_bounds eps_cfm lambda_shortfall = some (F, M))
    (i : ℕ) :
    ((F.getD i frameDefault).c_fixed = true →
      (F.getD i frameDefault).s_fixed = 0 ∧ (F.getD i frameDefault).o_fixed = 0) ∧
    ((F.getD i frameDefault).c_modes = true →
      (F.getD i frameDefault).s_modes = 0 ∧ (F.getD i frameDefault).o_modes = 0) ∧
    ((F.getD i frameDefault).c_var = true →
      (F.getD i frameDefault).s_var = 0 ∧ (F.getD i frameDefault).o_var = 0) := by
  by_cases hi : i < F.length
  · have hmem : F.getD i frameDefault ∈ F := by
      rw [List.getD_eq_getElem?_getD, List.getElem?_eq_getElem hi]
      exact List.getElem_mem hi
    obtain ⟨b, _, hseq, _⟩ := run_time_sim_inv fan t Q_demand k_t speeds_rpm fixed_rpm
      P_bep_ref_W N_ref_rpm idle_frac gamma_free x_bep rpm_bounds eps_cfm
      lambda_shortfall F M h
    obtain ⟨j, _, hstep⟩ := seqSteps_mem _ _ _ hseq _ hmem
    obtain ⟨k, Qd, mode, _, _, _, hf⟩ := simStep_inv fan t Q_demand k_t speeds_rpm
      fixed_rpm P_bep_ref_W N_ref_rpm idle_frac gamma_free x_bep b.1 b.2 eps_cfm j _ hstep
    rw [hf]
    exact simFrame_conservation fan fixed_rpm P_bep_ref_W N_ref_rpm idle_frac gamma_free
      x_bep b.1 b.2 eps_cfm (t.getD j 0) Qd k mode
  · rw [List.getD_eq_default _ _ (le_of_not_lt hi)]
    refine ⟨?_, ?_, ?_⟩ <;>
      · intro hc
        simp [frameDefault] at hc

/-- C5: the per-strategy aggregate record of every successful `run_time_sim`
satisfies exactly: Wh = (Σ power)·Δt/3600; delivered-airflow-time =
(Σ delivered)·Δt/3600; shortfall-time and oversupply-time analogously;
compliance percentage = 100 × (compliant steps)/(total steps); specific fan
power = Wh / max(delivered-airflow-time, 1e-9); and objective = Wh +
penaltyWeight × shortfall-time — where Δt is the median of the consecutive
timestamp differences when there is more than one sample and 1 when there is
exactly one. -/
theorem run_time_sim_aggregates (fan : FanCurve) (t Q_demand k_t speeds_rpm : List ℚ)
    (fixed_rpm P_bep_ref_W N_ref_rpm idle_frac gamma_free x_bep : ℚ)
    (rpm_bounds : Option (ℚ × ℚ)) (eps_cfm lambda_shortfall : ℚ)
    (F : List Frame) (M : Metrics)
    (h : run_time_sim fan t Q_demand k_t speeds_rpm fixed_rpm P_bep_ref_W N_ref_rpm
      idle_frac gamma_free x_bep rpm_bounds eps_cfm lambda_shortfall = some (F, M)) :
    (M.fixed.Wh = ((F.map (fun f => f.P_fixed)).sum *
        (if 1 < t.length then median (consecDiffs t) else 1)) / 3600 ∧
      M.fixed.cfmh_delivered = ((F.map (fun f => f.Q_fixed)).sum *
        (if 1 < t.length then median (consecDiffs t) else 1)) / 3600 ∧
      M.fixed.cfmh_shortfall = ((F.map (fun f => f.s_fixed)).sum *
        (if 1 < t.length then median (consecDiffs t) else 1)) / 3600 ∧
      M.fixed.cfmh_oversupply = ((F.map (fun f => f.o_fixed)).sum *
        (if 1 < t.length then median (consecDiffs t) else 1)) / 3600 ∧
      M.fixed.compliance_pct =
        100 * ((F.countP (fun f => f.c_fixed) : ℚ) / (F.length : ℚ)) ∧
      M.fixed.SFP = M.fixed.Wh / max M.fixed.cfmh_delivered (1 / 1000000000) ∧
      M.fixed.objective = M.fixed.Wh + lambda_shortfall * M.fixed.cfmh_shortfall) ∧
    (M.modes.Wh = ((F.map (fun f => f.P_modes)).sum *
        (if 1 < t.length then median (consecDiffs t) else 1)) / 3600 ∧
      M.modes.cfmh_delivered = ((F.map (fun f => f.Q_modes)).sum *
        (if 1 < t.length then median (consecDiffs t) else 1)) / 3600 ∧
      M.modes.cfmh_shortfall = ((F.map (fun f => f.s_modes)).sum *
        (if 1 < t.length then median (consecDiffs t) else 1)) / 3600 ∧
      M.modes.cfmh_oversupply = ((F.map (fun f => f.o_modes)).sum *
        (if 1 < t.length then median (consecDiffs t) else 1)) / 3600 ∧
      M.modes.compliance_pct =
        100 * ((F.countP (fun f => f.c_modes) : ℚ) / (F.length : ℚ)) ∧
      M.modes.SFP = M.modes.Wh / max M.modes.cfmh_delivered (1 / 1000000000) ∧
      M.modes.objective = M.modes.Wh + lambda_shortfall * M.modes.cfmh_shortfall) ∧
    (M.var.Wh = ((F.map (fun f => f.P_var)).sum *
        (if 1 < t.length then median (consecDiffs t) else 1)) / 3600 ∧
      M.var.cfmh_delivered = ((F.map (fun f => f.Q_var)).sum *
        (if 1 < t.length then median (consecDiffs t) else 1)) / 3600 ∧
      M.var.cfmh_shortfall = ((F.map (fun f => f.s_var)).sum *
        (if 1 < t.length then median (consecDiffs t) else 1)) / 3600 ∧
      M.var.cfmh_oversupply = ((F.map (fun f => f.o_var)).sum *
        (if 1 < t.length then median (consecDiffs t) else 1)) / 3600 ∧
      M.var.compliance_pct =
        100 * ((F.countP (fun f => f.c_var) : ℚ) / (F.length : ℚ)) ∧
      M.var.SFP = M.var.Wh / max M.var.cfmh_delivered (1 / 1000000000) ∧
      M.var.objective = M.var.Wh + lambda_shortfall * M.var.cfmh_shortfall) := by
  obtain ⟨b, _, _, hM⟩ := run_time_sim_inv fan t Q_demand k_t speeds_rpm fixed_rpm
    P_bep_ref_W N_ref_rpm idle_frac gamma_free x_bep rpm_bounds eps_cfm
    lambda_shortfall F M h
  subst hM
  exact ⟨⟨rfl, rfl, rfl, rfl, rfl, rfl, rfl⟩, ⟨rfl, rfl, rfl, rfl, rfl, rfl, rfl⟩,
    ⟨rfl, rfl, rfl, rfl, rfl, rfl, rfl⟩⟩

/-- The degenerate fan has zero free delivery, so every operating point is 0. -/
theorem opQ_fanZ (k rpm : ℚ) : operating_point_Q fanZ k rpm = 0 := by
  norm_num [operating_point_Q, FanCurve.free_delivery_cfm, fanZ]

/-- On the degenerate fan with the single speed 0, the mode selector returns
(0, 0) for every demand (feasible or not). -/
theorem choose_fanZ (k Qd : ℚ) :
    choose_mode_min_power fanZ k [0] Qd 10
      (fun f q r pb nr => power_model_convex f q r pb nr) 100 1200 = some (0, 0) := by
  have htr : modeTriples fanZ k [0]
      (fun f q r pb nr => power_model_convex f q r pb nr) 100 1200
      = [(0, 0, power_model_convex fanZ 0 0 100 1200)] := by
    simp [modeTriples, opQ_fanZ]
  by_cases h : Qd - 10 ≤ (0 : ℚ)
  · have hfe : modeFeasible fanZ k [0] Qd 10
        (fun f q r pb nr => power_model_convex f q r pb nr) 100 1200
        = [(0, 0, power_model_convex fanZ 0 0 100 1200)] := by
      unfold modeFeasible
      rw [htr]
      simp [List.filter_cons]
      linarith
    simp [choose_mode_min_power, hfe, pyMinBy, pyMinByGo]
  · have hfe : modeFeasible fanZ k [0] Qd 10
        (fun f q r pb nr => power_model_convex f q r pb nr) 100 1200 = [] := by
      unfold modeFeasible
      rw [htr]
      simp [List.filter_cons]
      linarith [not_le.mp h]
    simp [choose_mode_min_power, hfe, htr, pyMinBy, pyMaxBy, pyMaxByGo]

/-- Concrete evaluation of the one-step conservation-witness run. -/
theorem run_eval_C4 :
    run_time_sim fanZ [0] [0] [1] [0] 0 100 1200 (11 / 50) 2 (3 / 5) none 10 (3 / 10)
      = some ([wFrameC4], metricsOf [wFrameC4] (dtOf [0]) 10 (3 / 10)) := by
  have hstep : simStep fanZ [0] [0] [1] [0] 0 100 1200 (11 / 50) 2 (3 / 5) 0 0 10 0
      = some wFrameC4 := by
    simp [simStep, choose_fanZ, wFrameC4]
  have hb : rpmBoundsOf none [0] = some (0, 0) := by
    simp [rpmBoundsOf, pyMinBy, pyMinByGo, pyMaxBy, pyMaxByGo]
  simp [run_time_sim, hb, seqSteps, hstep, List.range_succ, dataFrameCheck]

/-- Concrete evaluation of the two-step aggregation-witness run. -/
theorem run_eval_C5 :
    run_time_sim fanZ [0, 1] [5, 5] [2, 2] [0] 0 100 1200 (11 / 50) 2 (3 / 5) none 10 (2 / 5)
      = some (wFramesC5, wMetricsC5) := by
  have hstep0 : simStep fanZ [0, 1] [5, 5] [2, 2] [0] 0 100 1200 (11 / 50) 2 (3 / 5) 0 0 10 0
      = some wFrameC5a := by
    simp [simStep, choose_fanZ, wFrameC5a]
  have hstep1 : simStep fanZ [0, 1] [5, 5] [2, 2] [0] 0 100 1200 (11 / 50) 2 (3 / 5) 0 0 10 1
      = some wFrameC5b := by
    simp [simStep, choose_fanZ, wFrameC5b]
  have hb : rpmBoundsOf none [0] = some (0, 0) := by
    simp [rpmBoundsOf, pyMinBy, pyMinByGo, pyMaxBy, pyMaxByGo]
  simp [run_time_sim, hb, seqSteps, hstep0, hstep1, List.range_succ, wFramesC5,
    wMetricsC5, dataFrameCheck]

/-- C3: contrary to the fail-fast requirement, `run_time_sim` does not
validate its input before processing: on the malformed input with one
timestamp but two demand values and two resistance values (mismatched
series lengths), the per-timestep loop runs to completion — every timestep
of `range len(t)` is processed, producing the full one-frame sequence — and
only afterwards does the run fail, at the frame-table construction
(`pd.DataFrame`, whose generic length error is neither descriptive of the
input nor raised at the entry point before any timestep). -/
theorem run_time_sim_late_failure :
    seqSteps (simStep fanZ [0] [100, 200] [1, 1] [0] 0 100 1200 (11 / 50) 2 (3 / 5)
      0 0 10) (List.range 1) = some [wFrameC3] ∧
    run_time_sim fanZ [0] [100, 200] [1, 1] [0] 0 100 1200 (11 / 50) 2 (3 / 5)
      none 10 (3 / 10) = none := by
  have hstep : simStep fanZ [0] [100, 200] [1, 1] [0] 0 100 1200 (11 / 50) 2 (3 / 5) 0 0 10 0
      = some wFrameC3 := by
    simp [simStep, choose_fanZ, wFrameC3]
  have hseq : seqSteps (simStep fanZ [0] [100, 200] [1, 1] [0] 0 100 1200 (11 / 50) 2 (3 / 5)
      0 0 10) (List.range 1) = some [wFrameC3] := by
    simp [seqSteps, hstep, List.range_succ]
  have hb : rpmBoundsOf none [0] = some (0, 0) := by
    simp [rpmBoundsOf, pyMinBy, pyMinByGo, pyMaxBy, pyMaxByGo]
  refine ⟨hseq, ?_⟩
  simp [run_time_sim, hb, hseq, dataFrameCheck]

/-- Witness for the conservation theorem on the concrete one-step run. -/
theorem run_time_sim_conservation_witness :
    (([wFrameC4].getD 0 frameDefault).c_fixed = true →
      ([wFrameC4].getD 0 frameDefault).s_fixed = 0 ∧
      ([wFrameC4].getD 0 frameDefault).o_fixed = 0) ∧
    (([wFrameC4].getD 0 frameDefault).c_modes = true →
      ([wFrameC4].getD 0 frameDefault).s_modes = 0 ∧
      ([wFrameC4].getD 0 frameDefault).o_modes = 0) ∧
    (([wFrameC4].getD 0 frameDefault).c_var = true →
      ([wFrameC4].getD 0 frameDefault).s_var = 0 ∧
      ([wFrameC4].getD 0 frameDefault).o_var = 0) :=
  run_time_sim_conservation fanZ [0] [0] [1] [0] 0 100 1200 (11 / 50) 2 (3 / 5)
    none 10 (3 / 10) [wFrameC4] (metricsOf [wFrameC4] (dtOf [0]) 10 (3 / 10))
    run_eval_C4 0

/-- Witness for the aggregation theorem on the concrete two-step run. -/
theorem run_time_sim_aggregates_witness :
    (wMetricsC5.fixed.Wh = ((wFramesC5.map (fun f => f.P_fixed)).sum *
        (if 1 < [(0 : ℚ), 1].length then median (consecDiffs [0, 1]) else 1)) / 3600 ∧
      wMetricsC5.fixed.cfmh_delivered = ((wFramesC5.map (fun f => f.Q_fixed)).sum *
        (if 1 < [(0 : ℚ), 1].length then median (consecDiffs [0, 1]) else 1)) / 3600 ∧
      wMetricsC5.fixed.cfmh_shortfall = ((wFramesC5.map (fun f => f.s_fixed)).sum *
        (if 1 < [(0 : ℚ), 1].length then median (consecDiffs [0, 1]) else 1)) / 3600 ∧
      wMetricsC5.fixed.cfmh_oversupply = ((wFramesC5.map (fun f => f.o_fixed)).sum *
        (if 1 < [(0 : ℚ), 1].length then median (consecDiffs [0, 1]) else 1)) / 3600 ∧
      wMetricsC5.fixed.compliance_pct =
        100 * ((wFramesC5.countP (fun f => f.c_fixed) : ℚ) / (wFramesC5.length : ℚ)) ∧
      wMetricsC5.fixed.SFP =
        wMetricsC5.fixed.Wh / max wMetricsC5.fixed.cfmh_delivered (1 / 1000000000) ∧
      wMetricsC5.fixed.objective =
        wMetricsC5.fixed.Wh + (2 / 5) * wMetricsC5.fixed.cfmh_shortfall) ∧
    (wMetricsC5.modes.Wh = ((wFramesC5.map (fun f => f.P_modes)).sum *
        (if 1 < [(0 : ℚ), 1].length then median (consecDiffs [0, 1]) else 1)) / 3600 ∧
      wMetricsC5.modes.cfmh_delivered = ((wFramesC5.map (fun f => f.Q_modes)).sum *
        (if 1 < [(0 : ℚ), 1].length then median (consecDiffs [0, 1]) else 1)) / 3600 ∧
      wMetricsC5.modes.cfmh_shortfall = ((wFramesC5.map (fun f => f.s_modes)).sum *
        (if 1 < [(0 : ℚ), 1].length then median (consecDiffs [0, 1]) else 1)) / 3600 ∧
      wMetricsC5.modes.cfmh_oversupply = ((wFramesC5.map (fun f => f.o_modes)).sum *
        (if 1 < [(0 : ℚ), 1].length then median (consecDiffs [0, 1]) else 1)) / 3600 ∧
      wMetricsC5.modes.compliance_pct =
        100 * ((wFramesC5.countP (fun f => f.c_modes) : ℚ) / (wFramesC5.length : ℚ)) ∧
      wMetricsC5.modes.SFP =
        wMetricsC5.modes.Wh / max wMetricsC5.modes.cfmh_delivered (1 / 1000000000) ∧
      wMetricsC5.modes.objective =
        wMetricsC5.modes.Wh + (2 / 5) * wMetricsC5.modes.cfmh_shortfall) ∧
    (wMetricsC5.var.Wh = ((wFramesC5.map (fun f => f.P_var)).sum *
        (if 1 < [(0 : ℚ), 1].length then median (consecDiffs [0, 1]) else 1)) / 3600 ∧
      wMetricsC5.var.cfmh_delivered = ((wFramesC5.map (fun f => f.Q_var)).sum *
        (if 1 < [(0 : ℚ), 1].length then median (consecDiffs [0, 1]) else 1)) / 3600 ∧
      wMetricsC5.var.cfmh_shortfall = ((wFramesC5.map (fun f => f.s_var)).sum *
        (if 1 < [(0 : ℚ), 1].length then median (consecDiffs [0, 1]) else 1)) / 3600 ∧
      wMetricsC5.var.cfmh_oversupply = ((wFramesC5.map (fun f => f.o_var)).sum *
        (if 1 < [(0 : ℚ), 1].length then median (consecDiffs [0, 1]) else 1)) / 3600 ∧
      wMetricsC5.var.compliance_pct =
        100 * ((wFramesC5.countP (fun f => f.c_var) : ℚ) / (wFramesC5.length : ℚ)) ∧
      wMetricsC5.var.SFP =
        wMetricsC5.var.Wh / max wMetricsC5.var.cfmh_delivered (1 / 1000000000) ∧
      wMetricsC5.var.objective =
        wMetricsC5.var.Wh + (2 / 5) * wMetricsC5.var.cfmh_shortfall) :=
  run_time_sim_aggregates fanZ [0, 1] [5, 5] [2, 2] [0] 0 100 1200 (11 / 50) 2 (3 / 5)
    none 10 (2 / 5) wFramesC5 wMetricsC5 run_eval_C5

/-- Witness for the monotonicity theorem at a concrete fan and speeds. -/
theorem operating_point_Q_monotone_witness :
    operating_point_Q fanA 1 600 800 ≤ operating_point_Q fanA 1 900 800 :=
  operating_point_Q_monotone fanA 1 800 600 900 (by norm_num [fanA]) (by norm_num)
    (by norm_num) (by norm_num [FanCurve.free_delivery_cfm, fanA])

end HvacFanGaits
